import Mathlib

/-!
Verification of the analytics visualization layer of the LifeSync dashboard.

The definitions below are a shallow embedding of the JavaScript source
(frontend/js/analytics-viz.js, the API communication layer, the theme
controller) and, where the backend aggregation code is not part of the
sources, models written from the specification, marked as such in their
doc comments.  JavaScript numbers are embedded as rationals; calendar
dates are embedded as integers counting days (day 0 is January 1 of the
target year).
-/

/-- Embedding of getHeatmapLevel (analytics-viz.js, lines 68 to 74):
buckets a completion percentage into one of five intensity levels. -/
def getHeatmapLevel (percentage : ℚ) : Nat :=
  if percentage = 0 then 0
  else if percentage ≤ 25 then 1
  else if percentage ≤ 50 then 2
  else if percentage ≤ 75 then 3
  else 4

/-- Embedding of getCorrelationLevel (analytics-viz.js, lines 321 to 327):
buckets a correlation coefficient into one of five display levels. -/
def getCorrelationLevel (correlation : ℚ) : Nat :=
  if 7/10 ≤ correlation then 4
  else if 1/2 ≤ correlation then 3
  else if 3/10 ≤ correlation then 2
  else if 0 < correlation then 1
  else 0

/-- Claim C1: the heatmap level function maps percentages to the fixed
thresholds exactly (0 to level 0, 1 to 25 to level 1, 26 to 50 to level 2,
51 to 75 to level 3, 76 to 100 to level 4, with the stated sample points)
and is monotone non-decreasing over the interval from 0 to 100. -/
theorem getHeatmapLevel_thresholds_monotone :
    getHeatmapLevel 0 = 0 ∧
    (∀ p : ℚ, 1 ≤ p → p ≤ 25 → getHeatmapLevel p = 1) ∧
    (∀ p : ℚ, 26 ≤ p → p ≤ 50 → getHeatmapLevel p = 2) ∧
    (∀ p : ℚ, 51 ≤ p → p ≤ 75 → getHeatmapLevel p = 3) ∧
    (∀ p : ℚ, 76 ≤ p → p ≤ 100 → getHeatmapLevel p = 4) ∧
    getHeatmapLevel 25 = 1 ∧ getHeatmapLevel 50 = 2 ∧ getHeatmapLevel 75 = 3 ∧
    getHeatmapLevel 76 = 4 ∧ getHeatmapLevel 100 = 4 ∧
    (∀ p q : ℚ, 0 ≤ p → p ≤ q → q ≤ 100 → getHeatmapLevel p ≤ getHeatmapLevel q) := by
  refine ⟨by decide, ?_, ?_, ?_, ?_, by decide, by decide, by decide, by decide, by decide, ?_⟩
  · intro p h1 h2
    unfold getHeatmapLevel
    split_ifs <;> first | rfl | (exfalso; subst_vars; linarith) | (exfalso; linarith)
  · intro p h1 h2
    unfold getHeatmapLevel
    split_ifs <;> first | rfl | (exfalso; subst_vars; linarith) | (exfalso; linarith)
  · intro p h1 h2
    unfold getHeatmapLevel
    split_ifs <;> first | rfl | (exfalso; subst_vars; linarith) | (exfalso; linarith)
  · intro p h1 h2
    unfold getHeatmapLevel
    split_ifs <;> first | rfl | (exfalso; subst_vars; linarith) | (exfalso; linarith)
  · intro p q hp hpq hq
    unfold getHeatmapLevel
    split_ifs with a1 a2 a3 a4 b1 b2 b3 b4 <;>
      first
        | omega
        | (exfalso; subst_vars; linarith)
        | (exfalso;
           first
             | linarith
             | (have hp0 : p = 0 := le_antisymm (by linarith) hp; exact absurd hp0 (by assumption)))

/-- Witness for C1 at concrete inputs. -/
theorem getHeatmapLevel_thresholds_monotone_witness :
    getHeatmapLevel 13 = 1 ∧ getHeatmapLevel 40 = 2 ∧
    getHeatmapLevel 60 ≤ getHeatmapLevel 90 := by
  refine ⟨getHeatmapLevel_thresholds_monotone.2.1 13 (by norm_num) (by norm_num),
          getHeatmapLevel_thresholds_monotone.2.2.1 40 (by norm_num) (by norm_num),
          getHeatmapLevel_thresholds_monotone.2.2.2.2.2.2.2.2.2.2 60 90
            (by norm_num) (by norm_num) (by norm_num)⟩

/-- Claim C8: the heatmap level function is total, always lands in the
set 0 to 4, sends every nonzero input at most 25 (negatives included) to
level 1, and sends every input above 75 (values above 100 included) to
level 4. -/
theorem getHeatmapLevel_total_range :
    (∀ p : ℚ, getHeatmapLevel p ≤ 4) ∧
    (∀ p : ℚ, p ≠ 0 → p ≤ 25 → getHeatmapLevel p = 1) ∧
    (∀ p : ℚ, 75 < p → getHeatmapLevel p = 4) := by
  refine ⟨?_, ?_, ?_⟩
  · intro p; unfold getHeatmapLevel; split_ifs <;> omega
  · intro p hne hle
    unfold getHeatmapLevel
    split_ifs with e1 e2 <;>
      first | rfl | exact absurd e1 hne | (exfalso; linarith)
  · intro p h
    unfold getHeatmapLevel
    split_ifs <;> first | rfl | (exfalso; subst_vars; linarith) | (exfalso; linarith)

/-- Witness for C8 at concrete inputs. -/
theorem getHeatmapLevel_total_range_witness :
    getHeatmapLevel (-5) = 1 ∧ getHeatmapLevel 101 = 4 := by
  exact ⟨getHeatmapLevel_total_range.2.1 (-5) (by norm_num) (by norm_num),
         getHeatmapLevel_total_range.2.2 101 (by norm_num)⟩

/-- Claim C9: the correlation display level function is monotone
non-decreasing, always lands in the set 0 to 4, and maps every
non-positive coefficient to level 0. -/
theorem getCorrelationLevel_monotone_range :
    (∀ p q : ℚ, p ≤ q → getCorrelationLevel p ≤ getCorrelationLevel q) ∧
    (∀ p : ℚ, getCorrelationLevel p ≤ 4) ∧
    (∀ p : ℚ, p ≤ 0 → getCorrelationLevel p = 0) := by
  refine ⟨?_, ?_, ?_⟩
  · intro p q hpq
    unfold getCorrelationLevel
    split_ifs <;> first | omega | (exfalso; linarith)
  · intro p; unfold getCorrelationLevel; split_ifs <;> omega
  · intro p h
    unfold getCorrelationLevel
    split_ifs <;> first | rfl | (exfalso; linarith)

/-- Witness for C9 at concrete inputs. -/
theorem getCorrelationLevel_monotone_range_witness :
    getCorrelationLevel (3/10) ≤ getCorrelationLevel (6/10) ∧
    getCorrelationLevel (-1/2) = 0 := by
  exact ⟨getCorrelationLevel_monotone_range.1 (3/10) (6/10) (by norm_num),
         getCorrelationLevel_monotone_range.2.2 (-1/2) (by norm_num)⟩

/-- One day of fetched heatmap data (analytics-viz.js, result.data entries). -/
structure DayData where
  completed : Nat
  total : Nat
  percentage : ℚ

/-- Embedding of the cell level choice in renderHeatmapCalendar (line 47):
a date present in the data map gets getHeatmapLevel of its percentage, a
date absent from the data map gets level 0. -/
def cellLevel (dataMap : Int → Option DayData) (d : Int) : Nat :=
  match dataMap d with
  | some data => getHeatmapLevel data.percentage
  | none => 0

/-- Embedding of the backward scan in renderHeatmapCalendar (lines 32 to 35):
starting from January 1 (day 0), step back one day while the weekday is
not Monday.  w0 is the JavaScript getDay value of January 1 (0 is Sunday,
1 is Monday).  The scan needs at most 7 steps; the fuel argument makes
that bound explicit. -/
def findMondayAux (w0 : Nat) : Nat → Int → Int
  | 0, d => d
  | fuel + 1, d => if ((w0 : Int) + d) % 7 = 1 then d else findMondayAux w0 fuel (d - 1)

/-- Embedding of the cell generation loop in renderHeatmapCalendar
(lines 42 to 59) over day numbers: while the week start is on or before
December 31 (day n - 1 for an n-day year), emit a full week of 7
consecutive days and advance by 7.  The guard of the source loop,
currentDate less or equal endDate or currentDate in the target year,
is equivalent to currentDate less or equal day n - 1, and the late break
on weekCount is unreachable because the guard already fails then. -/
def heatmapWeeks (n : Nat) (cur : Int) : List Int :=
  if cur ≤ (n : Int) - 1 then
    ((List.range 7).map (fun (i : Nat) => cur + (i : Int))) ++ heatmapWeeks n (cur + 7)
  else []
termination_by ((n : Int) - cur).toNat
decreasing_by omega

/-- Number of week iterations the loop performs. -/
def numWeeks (n : Nat) (cur : Int) : Nat :=
  if cur ≤ (n : Int) - 1 then numWeeks n (cur + 7) + 1 else 0
termination_by ((n : Int) - cur).toNat
decreasing_by omega

/-- The rendered grid: one cell (date, level) per emitted day, for the
first Monday on or before January 1 found by the backward scan. -/
def heatmapCells (n : Nat) (w0 : Nat) (dataMap : Int → Option DayData) :
    List (Int × Nat) :=
  (heatmapWeeks n (findMondayAux w0 7 0)).map (fun d => (d, cellLevel dataMap d))

theorem heatmapWeeks_eq_range (n : Nat) (cur : Int) :
    heatmapWeeks n cur =
      (List.range (7 * numWeeks n cur)).map (fun (i : Nat) => cur + (i : Int)) := by
  by_cases h : cur ≤ (n : Int) - 1
  · rw [heatmapWeeks, numWeeks, if_pos h, if_pos h,
      heatmapWeeks_eq_range n (cur + 7)]
    rw [Nat.mul_add, Nat.mul_one, Nat.add_comm (7 * numWeeks n (cur + 7)) 7,
      List.range_add, List.map_append, List.map_map]
    congr 1
    apply List.map_congr_left
    intro i _
    simp only [Function.comp_apply]
    push_cast
    ring
  · rw [heatmapWeeks, numWeeks, if_neg h, if_neg h]
    simp
termination_by ((n : Int) - cur).toNat
decreasing_by omega

theorem numWeeks_covers (n : Nat) (cur : Int) :
    (n : Int) ≤ cur + 7 * numWeeks n cur := by
  by_cases h : cur ≤ (n : Int) - 1
  · rw [numWeeks, if_pos h]
    have ih := numWeeks_covers n (cur + 7)
    push_cast
    omega
  · rw [numWeeks, if_neg h]
    omega
termination_by ((n : Int) - cur).toNat
decreasing_by omega

theorem heatmapWeeks_length (n : Nat) (cur : Int) :
    (heatmapWeeks n cur).length = 7 * numWeeks n cur := by
  rw [heatmapWeeks_eq_range]
  simp

/-- The completeness property of the rendered heatmap grid for an n-day
year whose January 1 falls on JavaScript weekday w0: the grid starts at
the first Monday on or before January 1, its days are consecutive in
chronological order, it advances in whole 7-day weeks to or past
December 31, every date of the year has a cell, and a date absent from
the fetched data is rendered at level 0 rather than omitted. -/
def heatmapGridOk (n : Nat) (w0 : Nat) (dataMap : Int → Option DayData) : Prop :=
  (findMondayAux w0 7 0 ≤ 0 ∧
   ((w0 : Int) + findMondayAux w0 7 0) % 7 = 1 ∧
   (∀ d : Int, findMondayAux w0 7 0 < d → d ≤ 0 → ((w0 : Int) + d) % 7 ≠ 1)) ∧
  (heatmapWeeks n (findMondayAux w0 7 0) =
    (List.range (heatmapWeeks n (findMondayAux w0 7 0)).length).map
      (fun (i : Nat) => findMondayAux w0 7 0 + (i : Int))) ∧
  ((heatmapWeeks n (findMondayAux w0 7 0)).length % 7 = 0) ∧
  ((n : Int) ≤ findMondayAux w0 7 0 + (heatmapWeeks n (findMondayAux w0 7 0)).length) ∧
  (∀ d : Int, 0 ≤ d → d < (n : Int) → d ∈ heatmapWeeks n (findMondayAux w0 7 0)) ∧
  (∀ d : Int, dataMap d = none → cellLevel dataMap d = 0) ∧
  (heatmapCells n w0 dataMap =
    (heatmapWeeks n (findMondayAux w0 7 0)).map (fun d => (d, cellLevel dataMap d)))

/-- Claim C2: for every year length and every weekday of January 1, the
rendered heatmap calendar contains a cell for every calendar date of the
year, in chronological order with no gaps, starting at the first Monday
on or before January 1 and advancing in consecutive 7-day weeks past
December 31, and any date absent from the fetched data is rendered as a
zero-activity cell. -/
theorem renderHeatmapCalendar_grid_complete (n : Nat) (hn : 1 ≤ n) (w0 : Nat)
    (hw : w0 < 7) (dataMap : Int → Option DayData) : heatmapGridOk n w0 dataMap := by
  have hstart : findMondayAux w0 7 0 = -(((w0 : Int) + 6) % 7) := by
    interval_cases w0 <;> decide
  have hstart0 : findMondayAux w0 7 0 ≤ 0 := by rw [hstart]; omega
  have hcov := numWeeks_covers n (findMondayAux w0 7 0)
  have hlen := heatmapWeeks_length n (findMondayAux w0 7 0)
  refine ⟨⟨hstart0, ?_, ?_⟩, ?_, ?_, ?_, ?_, ?_, rfl⟩
  · rw [hstart]; omega
  · intro d h1 h2
    rw [hstart] at h1
    omega
  · rw [hlen, heatmapWeeks_eq_range]
  · rw [hlen]; omega
  · rw [hlen]; push_cast; omega
  · intro d hd0 hdn
    rw [heatmapWeeks_eq_range]
    refine List.mem_map.mpr ⟨(d - findMondayAux w0 7 0).toNat, List.mem_range.mpr ?_, ?_⟩
    · omega
    · rw [Int.toNat_of_nonneg (by omega)]
      ring
  · intro d hd
    unfold cellLevel
    rw [hd]

/-- Witness for C2: a leap year (366 days) starting on a Monday, with no
fetched data at all. -/
theorem renderHeatmapCalendar_grid_complete_witness :
    heatmapGridOk 366 1 (fun _ => none) :=
  renderHeatmapCalendar_grid_complete 366 (by norm_num) 1 (by norm_num) (fun _ => none)

/-- Parsed JSON body of an API response: the success flag as the backend
sent it (none when the field is absent) and an optional message.  The
JavaScript truthiness test on data.success is true exactly when the field
is present and true. -/
structure ApiBody where
  success : Option Bool
  message : Option String

/-- An HTTP response as seen by the API layer: the ok flag and, when the
content type marks the body as JSON, the parsed body. -/
structure HttpResponse where
  ok : Bool
  contentType : Option String
  body : ApiBody

/-- Substring scan over character lists, mirroring the JavaScript
indexOf test: the pattern occurs at some position of the text. -/
def containsSubstr (pat : List Char) : List Char → Bool
  | [] => pat.isEmpty
  | c :: rest => pat.isPrefixOf (c :: rest) || containsSubstr pat rest

/-- The content type test of API.request: the header is present and
contains the substring application/json (indexOf different from -1). -/
def hasJsonContentType (r : HttpResponse) : Bool :=
  match r.contentType with
  | none => false
  | some ct => containsSubstr "application/json".toList ct.toList

namespace API

/-- Embedding of API.request (the API communication layer, lines 8 to 36):
a JSON response is parsed; a non-ok response whose body success flag is
not true throws; a non-JSON response always throws.  Throwing is embedded
as the error case of Except, matching the rejected promise. -/
def request (r : HttpResponse) : Except String ApiBody :=
  if hasJsonContentType r then
    if !r.ok && !(r.body.success = some true) then
      .error ((r.body.message).getD "API request failed")
    else
      .ok r.body
  else
    .error "Server error: Received non-JSON response"

end API

/-- Claim C6: every response that is not JSON, and every non-ok response
whose body lacks a true success flag, makes API.request throw (the
promise rejects); an upstream failure is never silently resolved into a
result value. -/
theorem api_request_surfaces_failures :
    (∀ r : HttpResponse, hasJsonContentType r = false →
      ∃ e, API.request r = .error e) ∧
    (∀ r : HttpResponse, r.ok = false → r.body.success ≠ some true →
      ∃ e, API.request r = .error e) := by
  constructor
  · intro r h
    refine ⟨"Server error: Received non-JSON response", ?_⟩
    unfold API.request
    rw [h]
    simp
  · intro r hok hsucc
    unfold API.request
    by_cases hj : hasJsonContentType r
    · refine ⟨(r.body.message).getD "API request failed", ?_⟩
      rw [hj]
      simp [hok, hsucc]
    · refine ⟨"Server error: Received non-JSON response", ?_⟩
      simp [hj]

/-- Witness for C6: a concrete HTML error page response and a concrete
non-ok JSON response without a success flag both reject. -/
theorem api_request_surfaces_failures_witness :
    (∃ e, API.request ⟨true, some "text/html", ⟨none, none⟩⟩ = .error e) ∧
    (∃ e, API.request ⟨false, some "application/json", ⟨none, some "boom"⟩⟩ = .error e) :=
  ⟨api_request_surfaces_failures.1 ⟨true, some "text/html", ⟨none, none⟩⟩ (by decide),
   api_request_surfaces_failures.2 ⟨false, some "application/json", ⟨none, some "boom"⟩⟩
     rfl (by decide)⟩

/-- One correlation entry as returned by the engine. -/
structure CorrEntry where
  habit1 : String
  habit2 : String
  correlation : ℚ

/-- The correlations API result consumed by renderCorrelationMatrix. -/
structure CorrResult where
  success : Bool
  correlations : List CorrEntry
  message : Option String
  analysis_period : Nat

/-- What renderCorrelationMatrix puts into the container: an error
message, a muted placeholder message, or the list of displayed entries
together with the analysis period shown in the footer line. -/
inductive CorrRender where
  | failure : String → CorrRender
  | placeholder : String → CorrRender
  | table : List CorrEntry → Nat → CorrRender

/-- True when the rendered output contains the analysis window length. -/
def CorrRender.showsPeriod : CorrRender → Bool
  | .table _ _ => true
  | _ => false

/-- Embedding of renderCorrelationMatrix (analytics-viz.js, lines 277 to
319): on failure an error message; on an empty correlation list a muted
message (and nothing else, the footer with the analysis period included);
otherwise the first 10 correlations in engine order plus the footer line
with result.analysis_period. -/
def renderCorrelationMatrix (result : CorrResult) : CorrRender :=
  if result.success = false then
    .failure "Failed to load correlation data"
  else if result.correlations.length = 0 then
    .placeholder ((result.message).getD "No correlation data available")
  else
    .table (result.correlations.take 10) result.analysis_period

/-- Counterexample to C7 as stated: a successful engine result with an
empty correlation list and a 90-day window renders the placeholder
message, which does not display the analysis window length. -/
theorem renderCorrelationMatrix_empty_hides_period :
    renderCorrelationMatrix ⟨true, [], none, 90⟩ =
      .placeholder "No correlation data available" ∧
    (renderCorrelationMatrix ⟨true, [], none, 90⟩).showsPeriod = false := by
  constructor <;> rfl

/-- Claim C7 (amended): for every successful correlation result with a
non-empty list, the view renders exactly the first 10 entries of the
ranked list in engine order together with the reported analysis window
length; when the list is empty the view renders a placeholder message
and the window length is not displayed. -/
theorem renderCorrelationMatrix_top10_and_period (result : CorrResult)
    (hs : result.success = true) (hne : result.correlations ≠ []) :
    renderCorrelationMatrix result =
      .table (result.correlations.take 10) result.analysis_period ∧
    (result.correlations.take 10).length ≤ 10 ∧
    (∃ rest, result.correlations.take 10 ++ rest = result.correlations) := by
  refine ⟨?_, ?_, ⟨result.correlations.drop 10, List.take_append_drop 10 _⟩⟩
  · unfold renderCorrelationMatrix
    rw [hs]
    simp only [Bool.true_eq_false, if_false]
    rw [if_neg]
    simpa using hne
  · simpa using List.length_take_le 10 result.correlations

/-- Witness for C7 (amended) at a concrete two-entry result. -/
theorem renderCorrelationMatrix_top10_and_period_witness :
    renderCorrelationMatrix ⟨true, [⟨"a", "b", 1/2⟩, ⟨"a", "c", 1/4⟩], none, 90⟩ =
      .table [⟨"a", "b", 1/2⟩, ⟨"a", "c", 1/4⟩] 90 :=
  (renderCorrelationMatrix_top10_and_period
    ⟨true, [⟨"a", "b", 1/2⟩, ⟨"a", "c", 1/4⟩], none, 90⟩ rfl
    (List.cons_ne_nil _ _)).1

/-- The browser state touched by the theme controller: the data-theme
attribute of the document element, the persisted localStorage entry under
the key lifesync-theme, and the optional user entry (only read to decide
whether to fire the ignored backend sync). -/
structure BrowserState where
  dataTheme : Option String
  themeStorage : Option String
  userEntry : Option String

/-- JavaScript falsy-or-default on an attribute read: getAttribute
returns null when absent, and both null and the empty string fall back
to dark under the logical-or. -/
def attrOrDark : Option String → String
  | none => "dark"
  | some s => if s = "" then "dark" else s

namespace Theme

/-- Embedding of Theme.apply (theme controller, lines 14 to 22): set the
data-theme attribute and the localStorage entry to the theme.  The
backend preference sync is fire-and-forget with a swallowed error and
touches neither location. -/
def apply (theme : String) (st : BrowserState) : BrowserState :=
  { st with dataTheme := some theme, themeStorage := some theme }

/-- Embedding of Theme.get (lines 32 to 34): the data-theme attribute,
with null or empty falling back to dark. -/
def get (st : BrowserState) : String :=
  attrOrDark st.dataTheme

/-- Embedding of Theme.toggle (lines 24 to 30): read the current theme
the same way get does, switch dark to light and anything else to dark,
and apply the result.  The transition CSS class is presentation only. -/
def toggle (st : BrowserState) : BrowserState :=
  let current := attrOrDark st.dataTheme
  apply (if current = "dark" then "light" else "dark") st

end Theme

/-- Claim C10: for every non-empty theme t, Theme.apply t sets both the
data-theme attribute and the persisted localStorage entry to t, so
Theme.get returns t; Theme.toggle maps a current theme of dark to light
and any other current theme to dark, and applying toggle twice from dark
or light restores the original theme. -/
theorem theme_apply_persists_and_toggle_involutive (t : String) (ht : t ≠ "")
    (st : BrowserState) :
    (Theme.apply t st).dataTheme = some t ∧
    (Theme.apply t st).themeStorage = some t ∧
    Theme.get (Theme.apply t st) = t ∧
    (∀ st2 : BrowserState, Theme.get st2 = "dark" →
      Theme.get (Theme.toggle st2) = "light") ∧
    (∀ st2 : BrowserState, Theme.get st2 ≠ "dark" →
      Theme.get (Theme.toggle st2) = "dark") ∧
    (∀ st2 : BrowserState, Theme.get st2 = "dark" ∨ Theme.get st2 = "light" →
      Theme.get (Theme.toggle (Theme.toggle st2)) = Theme.get st2) := by
  refine ⟨rfl, rfl, ?_, ?_, ?_, ?_⟩
  · simp [Theme.get, Theme.apply, attrOrDark, ht]
  · intro st2 h
    simp only [Theme.get, Theme.toggle, Theme.apply] at *
    rw [h]
    simp [attrOrDark]
  · intro st2 h
    simp only [Theme.get, Theme.toggle, Theme.apply] at *
    rw [if_neg h]
    simp [attrOrDark]
  · intro st2 h
    rcases h with h | h <;>
      (simp only [Theme.get] at h;
       simp only [Theme.get, Theme.toggle, Theme.apply];
       simp only [h];
       simp [attrOrDark, h])

/-- Witness for C10 with the theme light on an initially empty browser
state. -/
theorem theme_apply_persists_and_toggle_involutive_witness :
    (Theme.apply "light" ⟨none, none, none⟩).dataTheme = some "light" ∧
    (Theme.apply "light" ⟨none, none, none⟩).themeStorage = some "light" ∧
    Theme.get (Theme.apply "light" ⟨none, none, none⟩) = "light" ∧
    (∀ st2 : BrowserState, Theme.get st2 = "dark" →
      Theme.get (Theme.toggle st2) = "light") ∧
    (∀ st2 : BrowserState, Theme.get st2 ≠ "dark" →
      Theme.get (Theme.toggle st2) = "dark") ∧
    (∀ st2 : BrowserState, Theme.get st2 = "dark" ∨ Theme.get st2 = "light" →
      Theme.get (Theme.toggle (Theme.toggle st2)) = Theme.get st2) :=
  theme_apply_persists_and_toggle_involutive "light" (by decide) ⟨none, none, none⟩

/-- Modelled from the spec: the backend Streak/Consistency Calculator is
not among the sources (only the relational schema and the frontend
consumer are present).  Section 4.1: length of the run of consecutive
logged dates scanning downward from day d.  The log is the list of
logged completion dates; a run never exceeds the log size, so the fuel
argument bounds the scan. -/
def runLength (log : List Int) : Nat → Int → Nat
  | 0, _ => 0
  | fuel + 1, d => if log.contains d then runLength log fuel (d - 1) + 1 else 0

/-- Modelled from the spec: section 4.1, current streak is the count of
consecutive present dates starting at today, or at yesterday when today
is not logged yet (a miss today does not break an active streak until
the end of the day). -/
def currentStreak (log : List Int) (today : Int) : Nat :=
  if log.contains today then runLength log (log.length + 1) today
  else runLength log (log.length + 1) (today - 1)

/-- Modelled from the spec: section 4.1, best streak is the longest run
of consecutive present dates in the lookback window of the given number
of days ending today. -/
def bestStreak (log : List Int) (today : Int) (window : Nat) : Nat :=
  ((List.range window).map
    (fun (i : Nat) => runLength log (log.length + 1) (today - (i : Int)))).foldr max 0

/-- Modelled from the spec: section 4.1, completion rate is the number
of present days over the elapsed days times 100, rounded to a whole
percent, with zero elapsed days yielding 0 rather than a division
error. -/
def completionRate (log : List Int) (elapsed : Nat) : Int :=
  if elapsed = 0 then 0 else round ((100 * (log.length : ℚ)) / (elapsed : ℚ))

theorem runLength_nil (fuel : Nat) (d : Int) : runLength [] fuel d = 0 := by
  cases fuel <;> simp [runLength]

theorem foldr_max_map_zero (l : List Nat) :
    (List.map (fun (_ : Nat) => (0 : Nat)) l).foldr max 0 = 0 := by
  induction l with
  | nil => rfl
  | cons a t ih =>
    rw [List.map_cons, List.foldr_cons, ih]
    rfl

/-- Claim C3: a habit with zero logged completion days has completion
rate 0, current streak 0 and best streak 0, and a habit with zero
elapsed days has completion rate 0 rather than a division error. -/
theorem calculator_zero_log_zero_elapsed (today : Int) (window elapsed : Nat) :
    currentStreak [] today = 0 ∧
    bestStreak [] today window = 0 ∧
    completionRate [] elapsed = 0 ∧
    (∀ log : List Int, completionRate log 0 = 0) := by
  refine ⟨?_, ?_, ?_, ?_⟩
  · unfold currentStreak
    simp [runLength_nil]
  · unfold bestStreak
    simp only [runLength_nil]
    exact foldr_max_map_zero (List.range window)
  · unfold completionRate
    split_ifs with h
    · rfl
    · norm_num
  · intro log
    unfold completionRate
    simp

/-- Witness for C3 at concrete inputs (today day 100, a 90-day window,
30 elapsed days, and an empty log). -/
theorem calculator_zero_log_zero_elapsed_witness :
    currentStreak [] 100 = 0 ∧ bestStreak [] 100 90 = 0 ∧
    completionRate [] 30 = 0 ∧ (∀ log : List Int, completionRate log 0 = 0) :=
  calculator_zero_log_zero_elapsed 100 90 30

/-- Modelled from the spec: the backend Period Comparator is not among
the sources (only the frontend consumer is present).  Section 4.5:
percentage change between two period counts, with a zero baseline mapped
to the sentinel 0 rather than a computational error. -/
def percentChange (p1 p2 : ℚ) : ℚ :=
  if p1 = 0 then 0 else (p2 - p1) / p1 * 100

/-- What the comparison view shows for one change value. -/
structure ChangeDisplay where
  positive : Bool
  magnitude : ℚ

/-- Embedding of the change display in renderComparisonChart
(analytics-viz.js, lines 419 to 437): a change at least 0 is styled
positive with an up arrow, a negative one negative with a down arrow,
and the shown magnitude is the absolute value. -/
def renderChange (c : ℚ) : ChangeDisplay :=
  ⟨decide (0 ≤ c), |c|⟩

/-- Claim C5: a comparison with period1 count 0 (for example 0 habits
against 10) reports the defined sentinel 0, never an error or a
non-finite value, and the change values the comparison view displays are
well defined rationals with nonnegative magnitude for every input. -/
theorem comparison_zero_baseline_sentinel :
    (∀ p2 : ℚ, percentChange 0 p2 = 0) ∧
    percentChange 0 10 = 0 ∧
    renderChange (percentChange 0 10) = ⟨true, 0⟩ ∧
    (∀ p1 p2 : ℚ, 0 ≤ (renderChange (percentChange p1 p2)).magnitude) := by
  refine ⟨?_, ?_, ?_, ?_⟩
  · intro p2
    unfold percentChange
    simp
  · unfold percentChange
    simp
  · unfold renderChange percentChange
    simp
  · intro p1 p2
    unfold renderChange
    exact abs_nonneg _

/-- Modelled from the spec: the backend Correlation Engine is not among
the sources (only the frontend consumer is present).  Section 4.3,
Pearson over paired 0-1 completion vectors: the scaled covariance
n times sum xy minus sum x times sum y over the pointwise pairing of the
two vectors (the overlap of the two windows). -/
def covSum (xs ys : List ℚ) : ℚ :=
  ((xs.zip ys).length : ℚ) * ((xs.zip ys).map (fun p => p.1 * p.2)).sum
    - ((xs.zip ys).map Prod.fst).sum * ((xs.zip ys).map Prod.snd).sum

/-- Modelled from the spec: section 4.3, the scaled variance of a vector
is its scaled covariance with itself. -/
def varSum (xs : List ℚ) : ℚ := covSum xs xs

/-- Modelled from the spec: section 4.3, the Pearson correlation
coefficient in its computational form, scaled covariance over the square
root of the product of the scaled variances. -/
noncomputable def pearson (xs ys : List ℚ) : ℝ :=
  (covSum xs ys : ℝ) / Real.sqrt ((varSum xs : ℝ) * (varSum ys : ℝ))

theorem zip_self_eq_map (xs : List ℚ) : xs.zip xs = xs.map (fun x => (x, x)) := by
  induction xs with
  | nil => rfl
  | cons a t ih => simp [ih]

theorem sum_sq_nonneg_list (xs : List ℚ) : 0 ≤ (xs.map (fun x => x * x)).sum := by
  induction xs with
  | nil => simp
  | cons a t ih =>
    simp only [List.map_cons, List.sum_cons]
    nlinarith [sq_nonneg a]

theorem list_sq_sum_le_len_mul_sum_sq (xs : List ℚ) :
    xs.sum * xs.sum ≤ (xs.length : ℚ) * (xs.map (fun x => x * x)).sum := by
  induction xs with
  | nil => simp
  | cons a t ih =>
    simp only [List.sum_cons, List.map_cons, List.length_cons]
    push_cast
    rcases eq_or_ne t [] with rfl | hne
    · simp
    · have hn : (1 : ℚ) ≤ (t.length : ℚ) := by
        have h1 : 1 ≤ t.length := Nat.one_le_iff_ne_zero.mpr (by simpa using hne)
        exact_mod_cast h1
      have hq : 0 ≤ (t.map (fun x => x * x)).sum := sum_sq_nonneg_list t
      have key : 0 ≤ ((t.length : ℚ) * (t.map (fun x => x * x)).sum - t.sum * t.sum)
          * ((t.length : ℚ) + 1) := by
        apply mul_nonneg (by linarith) (by linarith)
      nlinarith [key, sq_nonneg ((t.length : ℚ) * a - t.sum), hn, ih]

theorem varSum_eq (xs : List ℚ) :
    varSum xs = (xs.length : ℚ) * (xs.map (fun x => x * x)).sum - xs.sum * xs.sum := by
  unfold varSum covSum
  rw [zip_self_eq_map]
  simp [List.map_map, Function.comp_def]

theorem varSum_nonneg (xs : List ℚ) : 0 ≤ varSum xs := by
  rw [varSum_eq]
  have := list_sq_sum_le_len_mul_sum_sq xs
  linarith

theorem covSum_comm (xs ys : List ℚ) : covSum xs ys = covSum ys xs := by
  unfold covSum
  rw [show ys.zip xs = (xs.zip ys).map Prod.swap from (List.zip_swap xs ys).symm]
  simp only [List.length_map, List.map_map]
  have h1 : List.map ((fun p : ℚ × ℚ => p.1 * p.2) ∘ Prod.swap) (xs.zip ys) =
      List.map (fun p : ℚ × ℚ => p.1 * p.2) (xs.zip ys) := by
    apply List.map_congr_left
    intro p _
    simp [Function.comp_apply, Prod.swap, mul_comm]
  have h2 : List.map (Prod.fst ∘ Prod.swap) (xs.zip ys) =
      List.map (Prod.snd (α := ℚ) (β := ℚ)) (xs.zip ys) := by
    apply List.map_congr_left
    intro p _
    rfl
  have h3 : List.map (Prod.snd ∘ Prod.swap) (xs.zip ys) =
      List.map (Prod.fst (α := ℚ) (β := ℚ)) (xs.zip ys) := by
    apply List.map_congr_left
    intro p _
    rfl
  rw [h1, h2, h3]
  ring

theorem pearson_self_eq_one (A : List ℚ) (h : varSum A ≠ 0) : pearson A A = 1 := by
  unfold pearson
  have h0 : (0 : ℚ) ≤ varSum A := varSum_nonneg A
  have hpos : (0 : ℝ) < (varSum A : ℝ) := by
    exact_mod_cast lt_of_le_of_ne h0 (Ne.symm h)
  have hv : covSum A A = varSum A := rfl
  rw [hv, Real.sqrt_mul_self hpos.le, div_self (ne_of_gt hpos)]

/-- Claim C4: the Pearson coefficient of the Correlation Engine is
symmetric in its two habit arguments for every pair of completion
vectors with sufficient overlap (at least the 7-day minimum), and the
self correlation of every vector with nonzero variance is 1. -/
theorem correlation_symmetric_and_self_one :
    (∀ A B : List ℚ, 7 ≤ (A.zip B).length → pearson A B = pearson B A) ∧
    (∀ A : List ℚ, varSum A ≠ 0 → pearson A A = 1) := by
  constructor
  · intro A B _
    unfold pearson
    rw [covSum_comm, mul_comm]
  · intro A h
    exact pearson_self_eq_one A h

/-- Witness for C4 on two concrete 7-day 0-1 vectors. -/
theorem correlation_symmetric_and_self_one_witness :
    pearson [1, 0, 1, 0, 1, 0, 1] [1, 1, 0, 0, 1, 0, 1] =
      pearson [1, 1, 0, 0, 1, 0, 1] [1, 0, 1, 0, 1, 0, 1] ∧
    pearson [1, 0, 1, 0, 1, 0, 1] [1, 0, 1, 0, 1, 0, 1] = 1 :=
  ⟨correlation_symmetric_and_self_one.1 [1, 0, 1, 0, 1, 0, 1] [1, 1, 0, 0, 1, 0, 1]
      (by decide),
   correlation_symmetric_and_self_one.2 [1, 0, 1, 0, 1, 0, 1]
      (by norm_num [varSum, covSum])⟩
